import Mathlib

/-!
# SceneAttributesManager

A shallow embedding of `esp/assets/managers/SceneAttributesManager.h`.

* `std::map<std::string, V>` is `StdMap V`: the entry list in strictly increasing key order
  (the order in which the container is iterated and compared).
* The member functions whose bodies are in the header (`setCurrPhysicsManagerAttributesHandle`,
  `setCurrCfgVals`, `updateTemplateHandleLists`, `resetFinalize`, `buildCtorFuncPtrMaps`) are
  state transformers on the record of instance variables.
* The member functions that the header only declares are modelled from the specification; each
  such definition says so in its doc comment.
-/

namespace esp.assets.managers

/-! ## std::map -/

/-- A `std::map<std::string, V>`: its entries, in strictly increasing key order. -/
structure StdMap (V : Type) where
  entries : List (String × V)
  ascending : entries.Pairwise (fun a b => a.1 < b.1)
deriving DecidableEq

namespace StdMap

/-- A default-constructed map. -/
def empty {V : Type} : StdMap V := ⟨[], List.Pairwise.nil⟩

/-- The member `clear()`: every entry is erased. -/
def clear {V : Type} (_m : StdMap V) : StdMap V := empty

/-- Lookup in an entry list: the value of the first entry under key `k`. -/
def findIn {V : Type} (k : String) : List (String × V) → Option V
  | [] => none
  | e :: es => if e.1 = k then some e.2 else findIn k es

/-- The member `find(k)`, as an optional value (`none` is `end()`). -/
def find {V : Type} (m : StdMap V) (k : String) : Option V := findIn k m.entries

/-- The number of entries stored under key `k` (the member `count(k)`). -/
def count {V : Type} (m : StdMap V) (k : String) : Nat :=
  (m.entries.filter (fun e => decide (e.1 = k))).length

/-- The keys, in iteration order. -/
def keys {V : Type} (m : StdMap V) : List String := m.entries.map Prod.fst

/-- Single-element `insert` on the entry list: the pair goes to its place in key order, and
nothing happens when the key is already present. -/
def insertIn {V : Type} (kv : String × V) : List (String × V) → List (String × V)
  | [] => [kv]
  | e :: es =>
    if kv.1 < e.1 then kv :: e :: es
    else if kv.1 = e.1 then e :: es
    else e :: insertIn kv es

/-- The member `insert(value)`. -/
def insert {V : Type} (m : StdMap V) (kv : String × V) : StdMap V :=
  ⟨insertIn kv m.entries, by
    have mem : ∀ l : List (String × V), ∀ x ∈ insertIn kv l, x = kv ∨ x ∈ l := by
      intro l
      induction l with
      | nil => intro x hx; simpa [insertIn] using hx
      | cons e es ih =>
        intro x hx
        unfold insertIn at hx
        split_ifs at hx with h1 h2
        · simpa using hx
        · exact Or.inr hx
        · rcases List.mem_cons.1 hx with rfl | hx
          · exact Or.inr (List.mem_cons_self _ _)
          · rcases ih x hx with h | h
            · exact Or.inl h
            · exact Or.inr (List.mem_cons_of_mem _ h)
    have asc : ∀ l : List (String × V), l.Pairwise (fun a b => a.1 < b.1) →
        (insertIn kv l).Pairwise (fun a b => a.1 < b.1) := by
      intro l
      induction l with
      | nil => intro _; simp [insertIn]
      | cons e es ih =>
        intro h
        rw [List.pairwise_cons] at h
        unfold insertIn
        split_ifs with h1 h2
        · refine List.pairwise_cons.2 ⟨?_, List.pairwise_cons.2 h⟩
          intro x hx
          rcases List.mem_cons.1 hx with rfl | hx
          · exact h1
          · exact lt_trans h1 (h.1 x hx)
        · exact List.pairwise_cons.2 h
        · refine List.pairwise_cons.2 ⟨?_, ih h.2⟩
          intro x hx
          rcases mem es x hx with rfl | hx
          · exact lt_of_le_of_ne (not_lt.1 h1) (Ne.symm h2)
          · exact h.1 x hx
    exact asc m.entries m.ascending⟩

/-- The member `insert(first, last)`: the pairs of the range are inserted one by one, in the
order of the range. -/
def insertRange {V : Type} (m : StdMap V) (range : List (String × V)) : StdMap V :=
  range.foldl insert m

/-- The assignment `m[k] = v` on the entry list: the value under `k` is overwritten, or a new
entry is put at its place in key order. -/
def assignIn {V : Type} (k : String) (v : V) : List (String × V) → List (String × V)
  | [] => [(k, v)]
  | e :: es =>
    if k < e.1 then (k, v) :: e :: es
    else if k = e.1 then (k, v) :: es
    else e :: assignIn k v es

/-- The assignment `m[k] = v` (`operator[]` followed by assignment to the reference). -/
def assign {V : Type} (m : StdMap V) (k : String) (v : V) : StdMap V :=
  ⟨assignIn k v m.entries, by
    have mem : ∀ l : List (String × V), ∀ x ∈ assignIn k v l, x = (k, v) ∨ x ∈ l := by
      intro l
      induction l with
      | nil => intro x hx; simpa [assignIn] using hx
      | cons e es ih =>
        intro x hx
        unfold assignIn at hx
        split_ifs at hx with h1 h2
        · simpa using hx
        · rcases List.mem_cons.1 hx with rfl | hx
          · exact Or.inl rfl
          · exact Or.inr (List.mem_cons_of_mem _ hx)
        · rcases List.mem_cons.1 hx with rfl | hx
          · exact Or.inr (List.mem_cons_self _ _)
          · rcases ih x hx with h | h
            · exact Or.inl h
            · exact Or.inr (List.mem_cons_of_mem _ h)
    have asc : ∀ l : List (String × V), l.Pairwise (fun a b => a.1 < b.1) →
        (assignIn k v l).Pairwise (fun a b => a.1 < b.1) := by
      intro l
      induction l with
      | nil => intro _; simp [assignIn]
      | cons e es ih =>
        intro h
        rw [List.pairwise_cons] at h
        unfold assignIn
        split_ifs with h1 h2
        · refine List.pairwise_cons.2 ⟨?_, List.pairwise_cons.2 h⟩
          intro x hx
          rcases List.mem_cons.1 hx with rfl | hx
          · exact h1
          · exact lt_trans h1 (h.1 x hx)
        · refine List.pairwise_cons.2 ⟨?_, h.2⟩
          intro x hx
          have := h.1 x hx
          rw [← h2] at this
          exact this
        · refine List.pairwise_cons.2 ⟨?_, ih h.2⟩
          intro x hx
          rcases mem es x hx with rfl | hx
          · exact lt_of_le_of_ne (not_lt.1 h1) (Ne.symm h2)
          · exact h.1 x hx
    exact asc m.entries m.ascending⟩

end StdMap

/-! ## The manager's data -/

/-- The values of the copy-constructor table `copyConstructorMap_` (its type is declared in
the base class): pointers to member functions of the manager. `null` is the null member
pointer; `createAttributesCopy T` is the instantiation `createAttributesCopy<T>` of the copy
function for the concrete attributes type named `T`. -/
inductive CopyCtor where
  | null : CopyCtor
  | createAttributesCopy (attributesType : String) : CopyCtor
deriving DecidableEq

/-- Modelled from the spec: the scene attributes template (the class `PhysicsSceneAttributes` is
declared outside this header). Its fields are the ones the specification's data model lists:
the name it is known by, the render-mesh and collision-mesh references with their inferred asset
types, the light-setup identifier, the frustum-culling flag, whether the frame has been set,
the name of the physics-manager template it depends on, and the file paths by semantic role. -/
structure PhysicsSceneAttributes where
  handle : String
  renderAssetHandle : String
  collisionAssetHandle : String
  renderAssetType : Option Nat
  collisionAssetType : Option Nat
  lightSetup : String
  frustrumCulling : Bool
  frameSet : Bool
  physicsManagerAttributesHandle : String
  filepaths : StdMap String
deriving DecidableEq

/-- Modelled from the spec: layer (a) of the default layering, the base construction defaults of
a template named `handle`: frame unset, culling off, empty light setup, nothing else set. -/
def PhysicsSceneAttributes.create (handle : String) : PhysicsSceneAttributes :=
  { handle := handle
    renderAssetHandle := ""
    collisionAssetHandle := ""
    renderAssetType := none
    collisionAssetType := none
    lightSetup := ""
    frustrumCulling := false
    frameSet := false
    physicsManagerAttributesHandle := ""
    filepaths := StdMap.empty }

/-- Modelled from the spec: the field set the external structured-configuration parser returns;
a field the file leaves unset is `none`. -/
structure ParsedSceneFields where
  renderAssetHandle : Option String
  collisionAssetHandle : Option String
  renderAssetType : Option Nat
  collisionAssetType : Option Nat
  lightSetup : Option String
  frustrumCulling : Option Bool

/-- Modelled from the spec: the external collaborators that are not registries: whether a name
resolves to an existing file, whether a name is that of a structured configuration file, the
parser of structured configuration files (`none` is a parse error), and the asset type the
filename pattern table gives a mesh handle (`none` when it cannot tell). -/
structure Collaborators where
  fileExists : String → Bool
  isConfigFileName : String → Bool
  parse : String → Option ParsedSceneFields
  inferAssetType : String → Option Nat

/-- Modelled from the spec: the Object-Template Registry as this manager consults it, namely the
handles it holds (the class `ObjectAttributesManager` is declared outside this header). The
handles of a registry are valid handles, "human-meaningful" strings: none of them is the empty
string. -/
structure ObjectAttributesManager where
  handles : List String
  valid : ∀ h ∈ handles, h ≠ ""
deriving DecidableEq

/-- Modelled from the spec: the collaborator's query `exists(handle) -> bool`. -/
def ObjectAttributesManager.existsHandle (m : ObjectAttributesManager) (handle : String) :
    Bool :=
  decide (handle ∈ m.handles)

/-- Modelled from the spec: the Physics-Manager-Template Registry, as the handles it holds (the
class `PhysicsAttributesManager` is declared outside this header). -/
structure PhysicsAttributesManager where
  handles : List String
deriving DecidableEq

/-- The instance variables of `SceneAttributesManager`. The last six are the ones the header
declares. The first four belong to the base class `AttributesManager`, whose header is not part
of the sources: `copyConstructorMap_` is the table `buildCtorFuncPtrMaps` writes, and the
template library is modelled from the spec as the handle-to-template mapping, the
handle-to-ID mapping and the next ID that was never handed out. -/
structure SceneAttributesManager where
  copyConstructorMap_ : StdMap CopyCtor
  templateLibrary_ : StdMap PhysicsSceneAttributes
  templateIDs_ : StdMap Nat
  nextTemplateID_ : Nat
  objectAttributesMgr_ : ObjectAttributesManager
  physicsAttributesManager_ : PhysicsAttributesManager
  cfgFilepaths_ : StdMap String
  cfgLightSetup_ : String
  cfgFrustrumCulling_ : Bool
  physicsManagerAttributesHandle_ : String
deriving DecidableEq

namespace SceneAttributesManager

/-! ## Member functions defined in the header -/

/-- The member `setCurrPhysicsManagerAttributesHandle(handle)`. -/
def setCurrPhysicsManagerAttributesHandle (s : SceneAttributesManager) (handle : String) :
    SceneAttributesManager :=
  { s with physicsManagerAttributesHandle_ := handle }

/-- The member `setCurrCfgVals(filepaths, lightSetup, frustrumCulling)`, statement by
statement: `clear`, range `insert`, and the two assignments. -/
def setCurrCfgVals (s : SceneAttributesManager) (filepaths : StdMap String)
    (lightSetup : String) (frustrumCulling : Bool) : SceneAttributesManager :=
  let s1 := { s with cfgFilepaths_ := s.cfgFilepaths_.clear }
  let s2 := { s1 with cfgFilepaths_ := s1.cfgFilepaths_.insertRange filepaths.entries }
  let s3 := { s2 with cfgLightSetup_ := lightSetup }
  { s3 with cfgFrustrumCulling_ := frustrumCulling }

/-- The member `updateTemplateHandleLists(templateID, templateHandle)`: its body is empty. -/
def updateTemplateHandleLists (s : SceneAttributesManager) (_templateID : Int)
    (_templateHandle : String) : SceneAttributesManager :=
  s

/-- The member `resetFinalize()`: its body is empty. -/
def resetFinalize (s : SceneAttributesManager) : SceneAttributesManager :=
  s

/-- The member `buildCtorFuncPtrMaps()`:
`copyConstructorMap_["PhysicsSceneAttributes"] = &createAttributesCopy<PhysicsSceneAttributes>`. -/
def buildCtorFuncPtrMaps (s : SceneAttributesManager) : SceneAttributesManager :=
  let createAttributesCopy := CopyCtor.createAttributesCopy "PhysicsSceneAttributes"
  { s with copyConstructorMap_ :=
      s.copyConstructorMap_.assign "PhysicsSceneAttributes" createAttributesCopy }

/-! ## Member functions the header only declares -/

/-- Modelled from the spec: the registry's handle listing, the handles under which a template
is stored, in the library's order. -/
def handleListing (s : SceneAttributesManager) : List String :=
  s.templateLibrary_.keys

/-- Modelled from the spec: what the validation of the base registration calls a resolvable
render or collision handle. The specification knows two kinds of asset such a handle can
name, and the handle resolves when it names one of them: an entry of the Object-Template
Registry, or an existing file. -/
def resolvable (env : Collaborators) (s : SceneAttributesManager) (assetHandle : String) :
    Bool :=
  s.objectAttributesMgr_.existsHandle assetHandle || env.fileExists assetHandle

/-- Modelled from the spec: the base registration `register(template, handle) -> ID` of the
generic Template Registry (defined in `AttributesManagerBase.h`, not part of the sources). It
validates that the template is well-formed, "render/collision handles non-empty, resolvable",
and otherwise refuses (`none`, nothing changes); it stores the template under `handle` and
returns the ID of the handle, reused when the handle has one and newly assigned otherwise. -/
def register (env : Collaborators) (s : SceneAttributesManager)
    (template : PhysicsSceneAttributes) (handle : String) :
    Option Nat × SceneAttributesManager :=
  if template.renderAssetHandle = "" ∨ template.collisionAssetHandle = "" then (none, s)
  else if resolvable env s template.renderAssetHandle = false ∨
      resolvable env s template.collisionAssetHandle = false then (none, s)
  else
    match s.templateIDs_.find handle with
    | some templateID =>
      (some templateID,
        { s with templateLibrary_ := s.templateLibrary_.assign handle template })
    | none =>
      (some s.nextTemplateID_,
        { s with
          templateLibrary_ := s.templateLibrary_.assign handle template
          templateIDs_ := s.templateIDs_.assign handle s.nextTemplateID_
          nextTemplateID_ := s.nextTemplateID_ + 1 })

/-- Modelled from the spec: the backfill step of `registerAttributesTemplateFinalize`, in the
words of section 4.2: a handle that is empty is filled from the other one ("falling back to
each other if only one is set"). A template with both handles set is left as it is. -/
def backfillHandles (template : PhysicsSceneAttributes) : PhysicsSceneAttributes :=
  if template.renderAssetHandle = "" then
    { template with renderAssetHandle := template.collisionAssetHandle }
  else if template.collisionAssetHandle = "" then
    { template with collisionAssetHandle := template.renderAssetHandle }
  else template

/-- Modelled from the spec: `registerAttributesTemplateFinalize` (declared in the header, defined
in `SceneAttributesManager.cpp`, not part of the sources). Registration is refused when the
render and collision handles are both empty; otherwise the template, backfilled, goes to the
base registration. The result is the template's index in the library, `none` when
registration was refused. -/
def registerAttributesTemplateFinalize (env : Collaborators) (s : SceneAttributesManager)
    (sceneAttributesTemplate : PhysicsSceneAttributes) (sceneAttributesHandle : String) :
    Option Nat × SceneAttributesManager :=
  if sceneAttributesTemplate.renderAssetHandle = "" ∧
      sceneAttributesTemplate.collisionAssetHandle = "" then (none, s)
  else register env s (backfillHandles sceneAttributesTemplate) sceneAttributesHandle

/-- Modelled from the spec: the hand-over of a finished template "to the generic registry for
optional registration" (a helper of the base class, not part of the sources). Without
registration the template itself is returned; with it, the copy of the registered template, or
null when registration was refused. -/
def postCreateRegister (env : Collaborators) (s : SceneAttributesManager)
    (attributes : PhysicsSceneAttributes) (registerTemplate : Bool) :
    Option PhysicsSceneAttributes × SceneAttributesManager :=
  if registerTemplate then
    match registerAttributesTemplateFinalize env s attributes attributes.handle with
    | (none, _) => (none, s)
    | (some _, s1) => (s1.templateLibrary_.find attributes.handle, s1)
  else (some attributes, s)

/-- Modelled from the spec: `initNewAttribsInternal` (declared in the header), layer (b) of
the layering of defaults: the Configuration-Context file paths, light setup and culling flag,
and the current physics-manager-template handle. -/
def initNewAttribsInternal (s : SceneAttributesManager)
    (newAttributes : PhysicsSceneAttributes) : PhysicsSceneAttributes :=
  { newAttributes with
    filepaths := s.cfgFilepaths_
    lightSetup := s.cfgLightSetup_
    frustrumCulling := s.cfgFrustrumCulling_
    physicsManagerAttributesHandle := s.physicsManagerAttributesHandle_ }

/-- Modelled from the spec: `createPrimBasedAttributesTemplate` (declared in the header, with
`registerTemplate = true` as the default argument). A handle that the Object-Template Registry
does not hold gives null at once; otherwise the render and collision handles of the template
with defaults both reference the primitive. -/
def createPrimBasedAttributesTemplate (env : Collaborators) (s : SceneAttributesManager)
    (primAttrTemplateHandle : String) (registerTemplate : Bool := true) :
    Option PhysicsSceneAttributes × SceneAttributesManager :=
  if s.objectAttributesMgr_.existsHandle primAttrTemplateHandle then
    let defaults :=
      initNewAttribsInternal s (PhysicsSceneAttributes.create primAttrTemplateHandle)
    let synthesized :=
      { defaults with
        renderAssetHandle := primAttrTemplateHandle
        collisionAssetHandle := primAttrTemplateHandle }
    postCreateRegister env s synthesized registerTemplate
  else (none, s)

/-- An Object-Template Registry that holds the primitive "cube" only. -/
def cubeOnly : ObjectAttributesManager :=
  ⟨["cube"], by decide⟩

/-- A manager whose library, ID table, copy-constructor table and configuration context are
empty, and whose Object-Template Registry is `objectAttributesMgr`. -/
def emptyManager (objectAttributesMgr : ObjectAttributesManager) : SceneAttributesManager :=
  { copyConstructorMap_ := StdMap.empty
    templateLibrary_ := StdMap.empty
    templateIDs_ := StdMap.empty
    nextTemplateID_ := 0
    objectAttributesMgr_ := objectAttributesMgr
    physicsAttributesManager_ := ⟨[]⟩
    cfgFilepaths_ := StdMap.empty
    cfgLightSetup_ := ""
    cfgFrustrumCulling_ := false
    physicsManagerAttributesHandle_ := "" }

/-- Collaborators for which no file exists, no name is a configuration file name, nothing
parses and no asset type can be inferred. -/
def noFiles : Collaborators :=
  { fileExists := fun _ => false
    isConfigFileName := fun _ => false
    parse := fun _ => none
    inferAssetType := fun _ => none }

end SceneAttributesManager

/-! ## Facts about std::map -/

namespace StdMap

theorem eq_of_entries_eq {V : Type} {a b : StdMap V} (h : a.entries = b.entries) : a = b := by
  cases a
  cases b
  cases h
  rfl

theorem insertIn_after_smaller {V : Type} (kv : String × V) (p : List (String × V))
    (h : ∀ x ∈ p, x.1 < kv.1) : insertIn kv p = p ++ [kv] := by
  induction p with
  | nil => rfl
  | cons e es ih =>
    have he : e.1 < kv.1 := h e (List.mem_cons_self _ _)
    have h1 : ¬ kv.1 < e.1 := not_lt.2 (le_of_lt he)
    have h2 : ¬ kv.1 = e.1 := fun hk => (ne_of_lt he) hk.symm
    have hes : ∀ x ∈ es, x.1 < kv.1 := fun x hx => h x (List.mem_cons_of_mem _ hx)
    simp [insertIn, h1, h2, ih hes]

theorem foldl_insertIn_ascending {V : Type} (l p : List (String × V))
    (h : (p ++ l).Pairwise (fun a b => a.1 < b.1)) :
    l.foldl (fun acc kv => insertIn kv acc) p = p ++ l := by
  induction l generalizing p with
  | nil => simp
  | cons kv l ih =>
    have hp : ∀ x ∈ p, x.1 < kv.1 := by
      intro x hx
      exact (List.pairwise_append.1 h).2.2 x hx kv (List.mem_cons_self _ _)
    have h' : ((p ++ [kv]) ++ l).Pairwise (fun a b => a.1 < b.1) := by
      simpa [List.append_assoc] using h
    rw [List.foldl_cons, insertIn_after_smaller kv p hp, ih (p ++ [kv]) h']
    simp [List.append_assoc]

theorem entries_foldl_insert {V : Type} (l : List (String × V)) (m : StdMap V) :
    (l.foldl insert m).entries = l.foldl (fun acc kv => insertIn kv acc) m.entries := by
  induction l generalizing m with
  | nil => rfl
  | cons kv l ih => simp only [List.foldl_cons]; rw [ih]; rfl

theorem insertRange_into_cleared {V : Type} (old m : StdMap V) :
    old.clear.insertRange m.entries = m := by
  apply eq_of_entries_eq
  unfold insertRange
  rw [entries_foldl_insert]
  have h : (([] : List (String × V)) ++ m.entries).Pairwise (fun a b => a.1 < b.1) := by
    simpa using m.ascending
  simpa [clear, empty] using foldl_insertIn_ascending m.entries [] h

theorem findIn_assignIn_same {V : Type} (k : String) (v : V) (l : List (String × V)) :
    findIn k (assignIn k v l) = some v := by
  induction l with
  | nil => simp [assignIn, findIn]
  | cons e es ih =>
    unfold assignIn
    split_ifs with h1 h2
    · simp [findIn]
    · simp [findIn]
    · have : ¬ e.1 = k := fun h => h2 h.symm
      simp [findIn, this, ih]

theorem findIn_assignIn_other {V : Type} (k k' : String) (v : V) (l : List (String × V))
    (hk : k' ≠ k) : findIn k' (assignIn k v l) = findIn k' l := by
  have hk' : ¬ k = k' := fun h => hk h.symm
  induction l with
  | nil => simp [assignIn, findIn, hk']
  | cons e es ih =>
    unfold assignIn
    split_ifs with h1 h2
    · simp [findIn, hk']
    · have : ¬ e.1 = k' := fun h => hk (h.symm.trans h2.symm)
      simp [findIn, hk', this]
    · simp [findIn, ih]

theorem assignIn_assignIn {V : Type} (k : String) (v : V) (l : List (String × V)) :
    assignIn k v (assignIn k v l) = assignIn k v l := by
  induction l with
  | nil => simp [assignIn]
  | cons e es ih =>
    by_cases h1 : k < e.1
    · simp [assignIn, h1]
    · by_cases h2 : k = e.1
      · simp [assignIn, h1, h2]
      · simp [assignIn, h1, h2, ih]

theorem filter_key_of_all_gt {V : Type} (k : String) (l : List (String × V))
    (h : ∀ x ∈ l, k < x.1) : l.filter (fun e => decide (e.1 = k)) = [] := by
  rw [List.filter_eq_nil_iff]
  intro x hx
  have := ne_of_gt (h x hx)
  simpa using this

theorem count_assignIn_same {V : Type} (k : String) (v : V) (l : List (String × V))
    (h : l.Pairwise (fun a b => a.1 < b.1)) :
    ((assignIn k v l).filter (fun e => decide (e.1 = k))).length = 1 := by
  induction l with
  | nil => simp [assignIn]
  | cons e es ih =>
    rw [List.pairwise_cons] at h
    unfold assignIn
    split_ifs with h1 h2
    · have hall : ∀ x ∈ e :: es, k < x.1 := by
        intro x hx
        rcases List.mem_cons.1 hx with rfl | hx
        · exact h1
        · exact lt_trans h1 (h.1 x hx)
      rw [List.filter_cons_of_pos (by simp), filter_key_of_all_gt k _ hall]
      rfl
    · have hall : ∀ x ∈ es, k < x.1 := by
        intro x hx
        rw [h2]
        exact h.1 x hx
      rw [List.filter_cons_of_pos (by simp), filter_key_of_all_gt k _ hall]
      rfl
    · have hne : ¬ e.1 = k := fun hk => h2 hk.symm
      rw [List.filter_cons_of_neg (by simpa using hne)]
      exact ih h.2

theorem count_assignIn_other {V : Type} (k k' : String) (v : V) (l : List (String × V))
    (hk : k' ≠ k) :
    ((assignIn k v l).filter (fun e => decide (e.1 = k'))).length =
      (l.filter (fun e => decide (e.1 = k'))).length := by
  have hk' : ¬ k = k' := fun h => hk h.symm
  induction l with
  | nil => simp [assignIn, hk']
  | cons e es ih =>
    unfold assignIn
    split_ifs with h1 h2
    · simp [List.filter_cons, hk']
    · have : ¬ e.1 = k' := fun h => hk (h.symm.trans h2.symm)
      simp [List.filter_cons, hk', this]
    · by_cases he : e.1 = k'
      · simp [List.filter_cons, he, ih]
      · simp [List.filter_cons, he, ih]

theorem mem_keys_assignIn {V : Type} (k : String) (v : V) (l : List (String × V)) :
    k ∈ (assignIn k v l).map Prod.fst := by
  induction l with
  | nil => simp [assignIn]
  | cons e es ih =>
    unfold assignIn
    split_ifs with h1 h2
    · simp
    · simp
    · simp only [List.map_cons, List.mem_cons]
      exact Or.inr ih

theorem find_assign_same {V : Type} (m : StdMap V) (k : String) (v : V) :
    (m.assign k v).find k = some v :=
  findIn_assignIn_same k v m.entries

theorem find_assign_other {V : Type} (m : StdMap V) (k k' : String) (v : V) (hk : k' ≠ k) :
    (m.assign k v).find k' = m.find k' :=
  findIn_assignIn_other k k' v m.entries hk

theorem mem_keys_assign {V : Type} (m : StdMap V) (k : String) (v : V) :
    k ∈ (m.assign k v).keys :=
  mem_keys_assignIn k v m.entries

end StdMap

namespace SceneAttributesManager

/-! ## The configuration context and the copy-constructor table -/

/-- C1: after `setCurrCfgVals(filepaths, lightSetup, frustrumCulling)` the stored configuration
context is exactly the arguments: `cfgFilepaths_` is the map `filepaths` (the same entries, so
the same value under every key and nothing under a key `filepaths` lacks), `cfgLightSetup_` is
`lightSetup`, `cfgFrustrumCulling_` is `frustrumCulling`; and the resulting context is the same
from any other starting state `s'`. -/
theorem setCurrCfgVals_replaces_context (s s' : SceneAttributesManager)
    (filepaths : StdMap String) (lightSetup : String) (frustrumCulling : Bool) :
    (s.setCurrCfgVals filepaths lightSetup frustrumCulling).cfgFilepaths_ = filepaths ∧
    (∀ k, (s.setCurrCfgVals filepaths lightSetup frustrumCulling).cfgFilepaths_.find k =
      filepaths.find k) ∧
    (∀ k, filepaths.find k = none →
      (s.setCurrCfgVals filepaths lightSetup frustrumCulling).cfgFilepaths_.find k = none) ∧
    (s.setCurrCfgVals filepaths lightSetup frustrumCulling).cfgLightSetup_ = lightSetup ∧
    (s.setCurrCfgVals filepaths lightSetup frustrumCulling).cfgFrustrumCulling_ =
      frustrumCulling ∧
    (s'.setCurrCfgVals filepaths lightSetup frustrumCulling).cfgFilepaths_ =
      (s.setCurrCfgVals filepaths lightSetup frustrumCulling).cfgFilepaths_ ∧
    (s'.setCurrCfgVals filepaths lightSetup frustrumCulling).cfgLightSetup_ =
      (s.setCurrCfgVals filepaths lightSetup frustrumCulling).cfgLightSetup_ ∧
    (s'.setCurrCfgVals filepaths lightSetup frustrumCulling).cfgFrustrumCulling_ =
      (s.setCurrCfgVals filepaths lightSetup frustrumCulling).cfgFrustrumCulling_ := by
  have key : ∀ t : SceneAttributesManager,
      (t.setCurrCfgVals filepaths lightSetup frustrumCulling).cfgFilepaths_ = filepaths :=
    fun t => StdMap.insertRange_into_cleared t.cfgFilepaths_ filepaths
  refine ⟨key s, ?_, ?_, rfl, rfl, ?_, rfl, rfl⟩
  · intro k
    rw [key s]
  · intro k hk
    rw [key s]
    exact hk
  · rw [key s, key s']

/-- C2: after `buildCtorFuncPtrMaps` the copy-constructor table has exactly one entry under
the key "PhysicsSceneAttributes", that entry is `createAttributesCopy<PhysicsSceneAttributes>`,
the entries under every other key are unchanged, and running the function a second time gives
the state that running it once gives. -/
theorem buildCtorFuncPtrMaps_registers_once (s : SceneAttributesManager) :
    s.buildCtorFuncPtrMaps.copyConstructorMap_.count "PhysicsSceneAttributes" = 1 ∧
    s.buildCtorFuncPtrMaps.copyConstructorMap_.find "PhysicsSceneAttributes" =
      some (CopyCtor.createAttributesCopy "PhysicsSceneAttributes") ∧
    (∀ k, k ≠ "PhysicsSceneAttributes" →
      s.buildCtorFuncPtrMaps.copyConstructorMap_.find k = s.copyConstructorMap_.find k ∧
      s.buildCtorFuncPtrMaps.copyConstructorMap_.count k = s.copyConstructorMap_.count k) ∧
    s.buildCtorFuncPtrMaps.buildCtorFuncPtrMaps = s.buildCtorFuncPtrMaps := by
  refine ⟨?_, ?_, ?_, ?_⟩
  · exact StdMap.count_assignIn_same _ _ _ s.copyConstructorMap_.ascending
  · exact StdMap.find_assign_same _ _ _
  · intro k hk
    exact ⟨StdMap.find_assign_other _ _ _ _ hk, StdMap.count_assignIn_other _ _ _ _ hk⟩
  · have h : (s.buildCtorFuncPtrMaps.copyConstructorMap_.assign "PhysicsSceneAttributes"
        (CopyCtor.createAttributesCopy "PhysicsSceneAttributes")) =
        s.buildCtorFuncPtrMaps.copyConstructorMap_ :=
      StdMap.eq_of_entries_eq (StdMap.assignIn_assignIn _ _ _)
    show ({ s.buildCtorFuncPtrMaps with copyConstructorMap_ := _ } : SceneAttributesManager) = _
    rw [h]

/-- C7: after `setCurrPhysicsManagerAttributesHandle(h)` the stored
`physicsManagerAttributesHandle_` is `h`, whatever was stored before (a second write replaces
the first), for every string, the empty one included, and whatever the Physics-Manager-Template
Registry holds; no other instance variable changes. -/
theorem setCurrPhysicsManagerAttributesHandle_stores (s : SceneAttributesManager)
    (h h' : String) :
    (s.setCurrPhysicsManagerAttributesHandle h).physicsManagerAttributesHandle_ = h ∧
    ((s.setCurrPhysicsManagerAttributesHandle h').setCurrPhysicsManagerAttributesHandle
      h).physicsManagerAttributesHandle_ = h ∧
    (s.setCurrPhysicsManagerAttributesHandle "").physicsManagerAttributesHandle_ = "" ∧
    (s.setCurrPhysicsManagerAttributesHandle h).physicsAttributesManager_ =
      s.physicsAttributesManager_ ∧
    s.setCurrPhysicsManagerAttributesHandle h =
      { s with physicsManagerAttributesHandle_ := h } :=
  ⟨rfl, rfl, rfl, rfl, rfl⟩

/-- C8: every operation other than `setCurrCfgVals`, namely
`setCurrPhysicsManagerAttributesHandle`, `updateTemplateHandleLists`, `resetFinalize` and
`buildCtorFuncPtrMaps`, leaves `cfgFilepaths_`, `cfgLightSetup_` and `cfgFrustrumCulling_` as
they were, for every state and argument. -/
theorem configuration_context_frame (s : SceneAttributesManager) (h : String)
    (templateID : Int) (templateHandle : String) :
    ((s.setCurrPhysicsManagerAttributesHandle h).cfgFilepaths_ = s.cfgFilepaths_ ∧
      (s.setCurrPhysicsManagerAttributesHandle h).cfgLightSetup_ = s.cfgLightSetup_ ∧
      (s.setCurrPhysicsManagerAttributesHandle h).cfgFrustrumCulling_ =
        s.cfgFrustrumCulling_) ∧
    ((s.updateTemplateHandleLists templateID templateHandle).cfgFilepaths_ = s.cfgFilepaths_ ∧
      (s.updateTemplateHandleLists templateID templateHandle).cfgLightSetup_ =
        s.cfgLightSetup_ ∧
      (s.updateTemplateHandleLists templateID templateHandle).cfgFrustrumCulling_ =
        s.cfgFrustrumCulling_) ∧
    (s.resetFinalize.cfgFilepaths_ = s.cfgFilepaths_ ∧
      s.resetFinalize.cfgLightSetup_ = s.cfgLightSetup_ ∧
      s.resetFinalize.cfgFrustrumCulling_ = s.cfgFrustrumCulling_) ∧
    (s.buildCtorFuncPtrMaps.cfgFilepaths_ = s.cfgFilepaths_ ∧
      s.buildCtorFuncPtrMaps.cfgLightSetup_ = s.cfgLightSetup_ ∧
      s.buildCtorFuncPtrMaps.cfgFrustrumCulling_ = s.cfgFrustrumCulling_) :=
  ⟨⟨rfl, rfl, rfl⟩, ⟨rfl, rfl, rfl⟩, ⟨rfl, rfl, rfl⟩, ⟨rfl, rfl, rfl⟩⟩

/-- C9: the finalize hooks are no-ops: `updateTemplateHandleLists(templateID, templateHandle)`
and `resetFinalize()` return the whole manager state as it was, and the former gives the same
state for any other pair of arguments. -/
theorem finalize_hooks_are_noops (s : SceneAttributesManager) (templateID templateID' : Int)
    (templateHandle templateHandle' : String) :
    s.updateTemplateHandleLists templateID templateHandle = s ∧
    s.resetFinalize = s ∧
    s.updateTemplateHandleLists templateID templateHandle =
      s.updateTemplateHandleLists templateID' templateHandle' :=
  ⟨rfl, rfl, rfl⟩

/-- C10: the two setters commute: `setCurrCfgVals` then
`setCurrPhysicsManagerAttributesHandle` gives the state that the opposite order gives, and
`setCurrCfgVals` leaves `physicsManagerAttributesHandle_` unchanged. -/
theorem setters_commute (s : SceneAttributesManager) (filepaths : StdMap String)
    (lightSetup : String) (frustrumCulling : Bool) (h : String) :
    (s.setCurrCfgVals filepaths lightSetup
      frustrumCulling).setCurrPhysicsManagerAttributesHandle h =
      (s.setCurrPhysicsManagerAttributesHandle h).setCurrCfgVals filepaths lightSetup
        frustrumCulling ∧
    (s.setCurrCfgVals filepaths lightSetup frustrumCulling).physicsManagerAttributesHandle_ =
      s.physicsManagerAttributesHandle_ :=
  ⟨rfl, rfl⟩

/-! ## Registration at the end of template creation -/

theorem existsHandle_ne_empty (m : ObjectAttributesManager) (h : String)
    (hex : m.existsHandle h = true) : h ≠ "" := by
  unfold ObjectAttributesManager.existsHandle at hex
  exact m.valid h (of_decide_eq_true hex)

theorem backfillHandles_of_set (t : PhysicsSceneAttributes) (hr : t.renderAssetHandle ≠ "")
    (hc : t.collisionAssetHandle ≠ "") : backfillHandles t = t := by
  simp [backfillHandles, hr, hc]

theorem register_of_resolvable (env : Collaborators) (s : SceneAttributesManager)
    (t : PhysicsSceneAttributes) (handle : String)
    (hr : t.renderAssetHandle ≠ "") (hc : t.collisionAssetHandle ≠ "")
    (hrr : resolvable env s t.renderAssetHandle = true)
    (hcr : resolvable env s t.collisionAssetHandle = true) :
    ∃ templateID, (s.register env t handle).1 = some templateID ∧
      (s.register env t handle).2.templateIDs_.find handle = some templateID ∧
      (s.register env t handle).2.templateLibrary_.find handle = some t ∧
      handle ∈ (s.register env t handle).2.handleListing := by
  unfold register
  rw [if_neg (by simp [hr, hc]), if_neg (by simp [hrr, hcr])]
  cases hfind : s.templateIDs_.find handle with
  | some templateID =>
    exact ⟨templateID, rfl, hfind, StdMap.find_assign_same _ _ _, StdMap.mem_keys_assign _ _ _⟩
  | none =>
    exact ⟨s.nextTemplateID_, rfl, StdMap.find_assign_same _ _ _,
      StdMap.find_assign_same _ _ _, StdMap.mem_keys_assign _ _ _⟩

theorem postCreateRegister_of_resolvable (env : Collaborators) (s : SceneAttributesManager)
    (a : PhysicsSceneAttributes)
    (hr : a.renderAssetHandle ≠ "") (hc : a.collisionAssetHandle ≠ "")
    (hrr : resolvable env s a.renderAssetHandle = true)
    (hcr : resolvable env s a.collisionAssetHandle = true) :
    (s.postCreateRegister env a true).1 = some a ∧
      a.handle ∈ (s.postCreateRegister env a true).2.handleListing := by
  obtain ⟨templateID, h1, _, h3, h4⟩ := register_of_resolvable env s a a.handle hr hc hrr hcr
  have hfin : s.registerAttributesTemplateFinalize env a a.handle =
      s.register env a a.handle := by
    unfold registerAttributesTemplateFinalize
    rw [if_neg (by simp [hr]), backfillHandles_of_set a hr hc]
  unfold postCreateRegister
  rw [if_pos rfl, hfin]
  rcases hreg : s.register env a a.handle with ⟨o, s1⟩
  rw [hreg] at h1 h3 h4
  simp only at h1 h3 h4
  subst h1
  exact ⟨h3, h4⟩

/-- C3: for every primitive handle `p` that exists in the Object-Template Registry,
`createPrimBasedAttributesTemplate(p)` (flag omitted) returns a non-null scene template whose
render handle and collision handle both equal `p`; for every `p` that does not exist there it
returns null, and the manager is unchanged. -/
theorem createPrimBasedAttributesTemplate_handles (env : Collaborators)
    (s : SceneAttributesManager) (p : String) :
    (s.objectAttributesMgr_.existsHandle p = true →
      ∃ t, (s.createPrimBasedAttributesTemplate env p).1 = some t ∧
        t.renderAssetHandle = p ∧ t.collisionAssetHandle = p) ∧
    (s.objectAttributesMgr_.existsHandle p = false →
      s.createPrimBasedAttributesTemplate env p = (none, s)) := by
  refine ⟨?_, ?_⟩
  · intro hex
    have hp : p ≠ "" := existsHandle_ne_empty _ p hex
    have hres : resolvable env s p = true := by simp [resolvable, hex]
    unfold createPrimBasedAttributesTemplate
    rw [if_pos hex]
    exact ⟨_, (postCreateRegister_of_resolvable env s _ hp hp hres hres).1, rfl, rfl⟩
  · intro hex
    unfold createPrimBasedAttributesTemplate
    rw [if_neg (by simp [hex])]

/-- C3, at a registry that holds "cube" only and with no file at all: the template for "cube"
has "cube" as its render and collision handle, and "sphere" gives null. -/
theorem createPrimBasedAttributesTemplate_handles_witness :
    (∃ t, ((emptyManager cubeOnly).createPrimBasedAttributesTemplate noFiles "cube").1 =
        some t ∧
      t.renderAssetHandle = "cube" ∧ t.collisionAssetHandle = "cube") ∧
    (emptyManager cubeOnly).createPrimBasedAttributesTemplate noFiles "sphere" =
      (none, emptyManager cubeOnly) :=
  ⟨(createPrimBasedAttributesTemplate_handles noFiles (emptyManager cubeOnly) "cube").1
      (by decide),
    (createPrimBasedAttributesTemplate_handles noFiles (emptyManager cubeOnly) "sphere").2
      (by decide)⟩

end SceneAttributesManager

end esp.assets.managers
